import Mathlib

/-!
Shallow embedding of the OpenThread Thread API binding layer
(`src/core/api/thread_api.cpp`) together with the spec-described core
components it delegates to.  The visible source is the public C binding
layer; the core components (Mle::MleRouter, KeyManager, NeighborTable,
MeshCoP datasets) are not part of the visible sources, so their behaviour
is modelled from the specification where a claim depends on it; each such
definition carries a doc comment starting with "Modelled from the spec:".
State is passed explicitly: every mutating API call is a function from the
instance state (plus arguments) to an error code paired with the new state.
-/

namespace OpenThread

/-- Device role, mirroring `otDeviceRole` / `Mle::DeviceRole`. -/
inductive DeviceRole
  | kRoleDisabled
  | kRoleDetached
  | kRoleChild
  | kRoleRouter
  | kRoleLeader
deriving DecidableEq, Repr

/-- Error codes, mirroring the `otError` / `ot::Error` values used by the API. -/
inductive OTError
  | kErrorNone
  | kErrorInvalidState
  | kErrorDetached
  | kErrorFailed
  | kErrorInvalidArgs
  | kErrorNotFound
deriving DecidableEq, Repr

/-- Leader data record, mirroring `otLeaderData` / `Mle::LeaderData`. -/
structure LeaderData where
  mPartitionId : Nat
  mWeighting : Nat
  mLeaderRouterId : Nat
  mDataVersion : Nat
  mStableDataVersion : Nat
deriving DecidableEq, Repr

/-- Parent router record, mirroring the fields of `ot::Router` that the
API layer reads (`GetExtAddress`, `GetRloc16`, `GetNextHop`, `GetCost`,
link info, `GetLastHeard`, `IsStateValid`, average/last RSS). -/
structure Router where
  extAddress : Nat
  rloc16 : Nat
  nextHop : Nat
  cost : Nat
  linkQualityIn : Nat
  linkQualityOut : Nat
  lastHeard : Nat
  stateValid : Bool
  averageRss : Int
  lastRss : Int
deriving DecidableEq, Repr

/-- Output record of `otThreadGetParentInfo`, mirroring `otRouterInfo`. -/
structure otRouterInfo where
  mExtAddress : Nat
  mRloc16 : Nat
  mRouterId : Nat
  mNextHop : Nat
  mPathCost : Nat
  mLinkQualityIn : Nat
  mLinkQualityOut : Nat
  mAge : Nat
  mAllocated : Bool
  mLinkEstablished : Bool
deriving DecidableEq, Repr

/-- A neighbor record as yielded by neighbor-table enumeration
(`otNeighborInfo`, restricted to identifying fields). -/
structure Neighbor where
  extAddress : Nat
  rloc16 : Nat
deriving DecidableEq, Repr

/-- The per-device instance state: the fields of the core components that
the API functions of `thread_api.cpp` read or write.  The neighbor table is
a fixed-capacity array of slots, a slot being empty (`none`) or holding a
live record (`some`), per the spec's fixed-capacity-table description.
`nowMs` stands for the current `TimerMilli::GetNow()` reading. -/
structure OTInstance where
  role : DeviceRole
  extendedPanId : Nat
  networkKey : List Nat
  networkName : String
  meshLocalPfx : Nat
  activeDataset : Option Nat
  pendingDataset : Option Nat
  keySequence : Nat
  keySwitchGuardTime : Nat
  lastKeyRotationTime : Nat
  leaderData : LeaderData
  parent : Router
  neighborTable : List (Option Neighbor)
  rloc16 : Nat
  nowMs : Nat
deriving DecidableEq, Repr

/-- Modelled from the spec: `Mle::Mle::IsDisabled` — the role predicate the
identity setters guard on; true exactly when the role is Disabled. -/
def IsDisabled (s : OTInstance) : Bool :=
  s.role = DeviceRole.kRoleDisabled

/-- Modelled from the spec: `Mle::Mle::IsAttached` is true for roles
Child, Router and Leader (spec 4.1). -/
def IsAttached (s : OTInstance) : Bool :=
  match s.role with
  | DeviceRole.kRoleChild => true
  | DeviceRole.kRoleRouter => true
  | DeviceRole.kRoleLeader => true
  | _ => false

/-- Modelled from the spec: `Mle::Mle::IsChild` — true exactly when the
role is Child. -/
def IsChild (s : OTInstance) : Bool :=
  s.role = DeviceRole.kRoleChild

/-- Modelled from the spec: `Mle::MeshLocalPrefix::SetFromExtendedPanId` —
the mesh-local prefix is derived deterministically from the Extended PAN ID
(spec 3); modelled as a concrete deterministic derivation. -/
def prefixFromExtendedPanId (extPanId : Nat) : Nat :=
  (0xfd * 2 ^ 56 + (extPanId % 2 ^ 40) * 2 ^ 16 + 0x00ff) % 2 ^ 64

/-- Embedding of `otThreadSetExtendedPanId`: guard on `IsDisabled`, else
`kErrorInvalidState`; on the disabled path set the extended PAN ID, derive
and set the mesh-local prefix from it, and clear both datasets. -/
def otThreadSetExtendedPanId (s : OTInstance) (extPanId : Nat) : OTError × OTInstance :=
  if IsDisabled s then
    (OTError.kErrorNone,
     { s with extendedPanId := extPanId
              meshLocalPfx := prefixFromExtendedPanId extPanId
              activeDataset := none
              pendingDataset := none })
  else
    (OTError.kErrorInvalidState, s)

/-- Embedding of `otThreadSetNetworkKey`: guard on `IsDisabled`, else
`kErrorInvalidState`; on the disabled path store the key and clear both
datasets. -/
def otThreadSetNetworkKey (s : OTInstance) (key : List Nat) : OTError × OTInstance :=
  if IsDisabled s then
    (OTError.kErrorNone,
     { s with networkKey := key
              activeDataset := none
              pendingDataset := none })
  else
    (OTError.kErrorInvalidState, s)

/-- Maximum network-name length in bytes (Thread network names are at most
16 bytes). -/
def kMaxNetworkNameSize : Nat := 16

/-- Modelled from the spec: `Mac::Mac::SetNetworkName` — not under the
visible sources; per spec 7 a malformed/oversized input yields
`InvalidArgs`, otherwise the name is stored and the call succeeds. -/
def macSetNetworkName (s : OTInstance) (name : String) : OTError × OTInstance :=
  if name.length ≤ kMaxNetworkNameSize then
    (OTError.kErrorNone, { s with networkName := name })
  else
    (OTError.kErrorInvalidArgs, s)

/-- Embedding of `otThreadSetNetworkName`: guard on `IsDisabled`, else
`kErrorInvalidState`; on the disabled path call the MAC-layer name setter,
keep its error, and clear both datasets regardless of that error. -/
def otThreadSetNetworkName (s : OTInstance) (name : String) : OTError × OTInstance :=
  if IsDisabled s then
    let res := macSetNetworkName s name
    (res.1, { res.2 with activeDataset := none, pendingDataset := none })
  else
    (OTError.kErrorInvalidState, s)

/-- Embedding of `otThreadSetMeshLocalPrefix`: guard on `IsDisabled`, else
`kErrorInvalidState`; on the disabled path store the prefix and clear both
datasets. -/
def otThreadSetMeshLocalPfx (s : OTInstance) (p : Nat) : OTError × OTInstance :=
  if IsDisabled s then
    (OTError.kErrorNone,
     { s with meshLocalPfx := p
              activeDataset := none
              pendingDataset := none })
  else
    (OTError.kErrorInvalidState, s)

/-- Embedding of `otThreadGetLeaderData`: fails with `kErrorDetached`
unless `IsAttached`; on success the stored leader data is written to the
caller's output record (the out-parameter is modelled as an in/out value,
left untouched on the failure path exactly as the C code leaves it). -/
def otThreadGetLeaderData (s : OTInstance) (out : LeaderData) : OTError × LeaderData :=
  if IsAttached s then
    (OTError.kErrorNone, s.leaderData)
  else
    (OTError.kErrorDetached, out)

/-- Embedding of `otThreadGetLeaderRouterId`: unconditional projection of
the stored leader router id. -/
def otThreadGetLeaderRouterId (s : OTInstance) : Nat :=
  s.leaderData.mLeaderRouterId

/-- Embedding of `otThreadGetLeaderWeight`: unconditional projection of the
stored leader weighting. -/
def otThreadGetLeaderWeight (s : OTInstance) : Nat :=
  s.leaderData.mWeighting

/-- Embedding of `otThreadGetPartitionId`: unconditional projection of the
stored partition id. -/
def otThreadGetPartitionId (s : OTInstance) : Nat :=
  s.leaderData.mPartitionId

/-- Modelled from the spec: `Mle::Mle::RouterIdFromRloc16` — the RLOC16
encodes the router id in its upper bits (glossary); modelled as the upper
6 bits of the 16-bit short address. -/
def RouterIdFromRloc16 (r : Nat) : Nat :=
  r % 2 ^ 16 / 2 ^ 10

/-- Embedding of `otThreadGetParentInfo`, parameterised by the
`OPENTHREAD_CONFIG_REFERENCE_DEVICE_ENABLE` build flag: without the
reference-device override the call fails with `kErrorInvalidState` unless
`IsChild`; otherwise it fills the output record from the distinguished
parent record. -/
def otThreadGetParentInfo (refDevice : Bool) (s : OTInstance) (out : otRouterInfo) :
    OTError × otRouterInfo :=
  if !refDevice && !(IsChild s) then
    (OTError.kErrorInvalidState, out)
  else
    (OTError.kErrorNone,
     { mExtAddress := s.parent.extAddress
       mRloc16 := s.parent.rloc16
       mRouterId := RouterIdFromRloc16 s.parent.rloc16
       mNextHop := s.parent.nextHop
       mPathCost := s.parent.cost
       mLinkQualityIn := s.parent.linkQualityIn
       mLinkQualityOut := s.parent.linkQualityOut
       mAge := (s.nowMs - s.parent.lastHeard) / 1000 % 2 ^ 8
       mAllocated := true
       mLinkEstablished := s.parent.stateValid })

/-- The invalid-RSSI sentinel `OT_RADIO_RSSI_INVALID` (127). -/
def OT_RADIO_RSSI_INVALID : Int := 127

/-- Embedding of `otThreadGetParentAverageRssi`: the stored average RSS of
the parent is written to the out-parameter, then the call fails with
`kErrorFailed` when that value is the invalid sentinel.  The instance
state is returned unchanged: the call is a pure read. -/
def otThreadGetParentAverageRssi (s : OTInstance) : (OTError × Int) × OTInstance :=
  let rssi := s.parent.averageRss
  (if rssi ≠ OT_RADIO_RSSI_INVALID then (OTError.kErrorNone, rssi)
   else (OTError.kErrorFailed, rssi), s)

/-- Modelled from the spec: `KeyManager::SetCurrentKeySequence` — the
administrative setter is unconditional (spec 4.2): it stores the given
32-bit value, with no role or guard-time check. -/
def SetCurrentKeySequence (s : OTInstance) (v : Nat) : OTInstance :=
  { s with keySequence := v % 2 ^ 32 }

/-- Embedding of `otThreadSetKeySequenceCounter`: delegates unconditionally
to the key manager's administrative setter. -/
def otThreadSetKeySequenceCounter (s : OTInstance) (v : Nat) : OTInstance :=
  SetCurrentKeySequence s v

/-- Modelled from the spec: the automatic key-rotation path of KeyManager —
with guard `G` hours and last rotation at time `T`, rotation (incrementing
the sequence modulo wraparound and recording the rotation time) happens
only when the current time has reached `T + G`; before that the step is a
no-op (spec 4.2, 8).  Time is measured in hours. -/
def keyRotationStep (s : OTInstance) (nowHours : Nat) : OTInstance :=
  if s.lastKeyRotationTime + s.keySwitchGuardTime ≤ nowHours then
    { s with keySequence := (s.keySequence + 1) % 2 ^ 32
             lastKeyRotationTime := nowHours }
  else s

/-- Modelled from the spec: `Mle::MleRouter::Start` — transitions
Disabled to Detached (beginning the attach procedure), and fails with
`kErrorInvalidState` if the machine is already started (spec 4.1). -/
def Start (s : OTInstance) : OTError × OTInstance :=
  if s.role = DeviceRole.kRoleDisabled then
    (OTError.kErrorNone, { s with role := DeviceRole.kRoleDetached })
  else
    (OTError.kErrorInvalidState, s)

/-- Modelled from the spec: `Mle::MleRouter::Stop` — moves any state to
Disabled and releases all neighbor/router state (every table slot is
emptied); the call cannot fail (spec 4.1). -/
def Stop (s : OTInstance) : OTInstance :=
  { s with role := DeviceRole.kRoleDisabled
           neighborTable := s.neighborTable.map (fun _ => none) }

/-- Embedding of `otThreadSetEnabled`: with `true` it returns the error of
`Start`; with `false` it runs `Stop` and returns `kErrorNone`. -/
def otThreadSetEnabled (s : OTInstance) (enabled : Bool) : OTError × OTInstance :=
  if enabled then Start s else (OTError.kErrorNone, Stop s)

/-- Modelled from the spec: `NeighborTable::GetNextNeighborInfo` — the
iterator is an index into the fixed-capacity table; the call scans forward
from the iterator, yields the first live record together with the advanced
iterator (the index just past the slot yielded), or signals end-of-table
(`none`, the `kErrorNotFound` return) when no live slot remains (spec 4.3). -/
def GetNextNeighborInfo : List (Option Neighbor) → Nat → Option (Neighbor × Nat)
  | [], _ => none
  | some x :: _, 0 => some (x, 1)
  | none :: rest, 0 =>
      match GetNextNeighborInfo rest 0 with
      | none => none
      | some (x, j) => some (x, j + 1)
  | _ :: rest, n + 1 =>
      match GetNextNeighborInfo rest n with
      | none => none
      | some (x, j) => some (x, j + 1)

/-- Repeated calls to `GetNextNeighborInfo`, threading the iterator, for at
most `fuel` calls: the list of records yielded before the end-of-table
signal (or before the fuel runs out). -/
def enumNeighbors : Nat → List (Option Neighbor) → Nat → List Neighbor
  | 0, _, _ => []
  | fuel + 1, table, it =>
      match GetNextNeighborInfo table it with
      | none => []
      | some (x, it') => x :: enumNeighbors fuel table it'

/-- A short (legal) network name used by the witness theorems. -/
def sampleName : String :=
  "OpenThread"

/-- An oversized network name (17 bytes, above the 16-byte maximum) used by
the witness theorems. -/
def longName : String :=
  "abcdefghijklmnopq"

/-- A concrete instance state used by the witness theorems, parameterised
by the device role. -/
def sampleInstance (r : DeviceRole) : OTInstance :=
  { role := r
    extendedPanId := 17
    networkKey := [1, 2, 3]
    networkName := sampleName
    meshLocalPfx := 42
    activeDataset := some 5
    pendingDataset := some 6
    keySequence := 9
    keySwitchGuardTime := 3
    lastKeyRotationTime := 100
    leaderData := ⟨7, 64, 2, 10, 9⟩
    parent := ⟨1, 3072, 2, 5, 3, 3, 1000, true, -60, -55⟩
    neighborTable := [some ⟨1, 3072⟩, none, some ⟨2, 3073⟩]
    rloc16 := 3074
    nowMs := 5000 }

/-- C1: for every identity setter (SetExtendedPanId, SetNetworkKey,
SetNetworkName, SetMeshLocalPrefix) and every state whose role is not
Disabled, the call returns InvalidState and the whole instance state — in
particular the previously stored value of the identity attribute — is
unchanged. -/
theorem identity_setters_reject_when_not_disabled (s : OTInstance)
    (h : s.role ≠ DeviceRole.kRoleDisabled) (x : Nat) (k : List Nat)
    (n : String) (p : Nat) :
    otThreadSetExtendedPanId s x = (OTError.kErrorInvalidState, s) ∧
    otThreadSetNetworkKey s k = (OTError.kErrorInvalidState, s) ∧
    otThreadSetNetworkName s n = (OTError.kErrorInvalidState, s) ∧
    otThreadSetMeshLocalPfx s p = (OTError.kErrorInvalidState, s) := by
  simp [otThreadSetExtendedPanId, otThreadSetNetworkKey, otThreadSetNetworkName,
        otThreadSetMeshLocalPfx, IsDisabled, h]

/-- Witness for C1 at a concrete Child-role state. -/
theorem identity_setters_reject_when_not_disabled_witness :
    (sampleInstance DeviceRole.kRoleChild).role ≠ DeviceRole.kRoleDisabled ∧
    otThreadSetExtendedPanId (sampleInstance DeviceRole.kRoleChild) 5 =
      (OTError.kErrorInvalidState, sampleInstance DeviceRole.kRoleChild) :=
  ⟨by decide,
   (identity_setters_reject_when_not_disabled (sampleInstance DeviceRole.kRoleChild)
      (by decide) 5 [] sampleName 0).1⟩

/-- C2: GetLeaderData fails with the Detached error exactly when the role
is Disabled or Detached, and for Child, Router and Leader it succeeds and
writes the stored leader data into the caller's output record. -/
theorem get_leader_data_detached_iff (s : OTInstance) (out : LeaderData) :
    ((otThreadGetLeaderData s out).1 = OTError.kErrorDetached ↔
      (s.role = DeviceRole.kRoleDisabled ∨ s.role = DeviceRole.kRoleDetached)) ∧
    ((s.role = DeviceRole.kRoleChild ∨ s.role = DeviceRole.kRoleRouter ∨
        s.role = DeviceRole.kRoleLeader) →
      otThreadGetLeaderData s out = (OTError.kErrorNone, s.leaderData)) := by
  cases hr : s.role <;> simp [otThreadGetLeaderData, IsAttached, hr]

/-- Witness for C2: detached state fails, leader state succeeds. -/
theorem get_leader_data_detached_iff_witness :
    (otThreadGetLeaderData (sampleInstance DeviceRole.kRoleDetached) ⟨0, 0, 0, 0, 0⟩).1 =
      OTError.kErrorDetached ∧
    otThreadGetLeaderData (sampleInstance DeviceRole.kRoleLeader) ⟨0, 0, 0, 0, 0⟩ =
      (OTError.kErrorNone, (sampleInstance DeviceRole.kRoleLeader).leaderData) :=
  ⟨(get_leader_data_detached_iff (sampleInstance DeviceRole.kRoleDetached)
      ⟨0, 0, 0, 0, 0⟩).1.mpr (Or.inr rfl),
   (get_leader_data_detached_iff (sampleInstance DeviceRole.kRoleLeader)
      ⟨0, 0, 0, 0, 0⟩).2 (Or.inr (Or.inr rfl))⟩

/-- C3: with the reference-device override not configured, GetParentInfo
returns InvalidState for every role other than Child, and when the role is
Child it succeeds with an output record whose mRloc16 equals the
distinguished parent record's RLOC16. -/
theorem get_parent_info_spec (s : OTInstance) (out : otRouterInfo) :
    (s.role ≠ DeviceRole.kRoleChild →
      otThreadGetParentInfo false s out = (OTError.kErrorInvalidState, out)) ∧
    (s.role = DeviceRole.kRoleChild →
      (otThreadGetParentInfo false s out).1 = OTError.kErrorNone ∧
      (otThreadGetParentInfo false s out).2.mRloc16 = s.parent.rloc16) := by
  cases hr : s.role <;> simp [otThreadGetParentInfo, IsChild, hr]

/-- Witness for C3: router state is rejected, child state succeeds with the
parent RLOC16. -/
theorem get_parent_info_spec_witness :
    otThreadGetParentInfo false (sampleInstance DeviceRole.kRoleRouter)
        ⟨0, 0, 0, 0, 0, 0, 0, 0, false, false⟩ =
      (OTError.kErrorInvalidState, ⟨0, 0, 0, 0, 0, 0, 0, 0, false, false⟩) ∧
    (otThreadGetParentInfo false (sampleInstance DeviceRole.kRoleChild)
        ⟨0, 0, 0, 0, 0, 0, 0, 0, false, false⟩).2.mRloc16 =
      (sampleInstance DeviceRole.kRoleChild).parent.rloc16 :=
  ⟨(get_parent_info_spec (sampleInstance DeviceRole.kRoleRouter)
      ⟨0, 0, 0, 0, 0, 0, 0, 0, false, false⟩).1 (by decide),
   ((get_parent_info_spec (sampleInstance DeviceRole.kRoleChild)
      ⟨0, 0, 0, 0, 0, 0, 0, 0, false, false⟩).2 rfl).2⟩

/-- C4: GetLeaderRouterId, GetLeaderWeight and GetPartitionId never fail:
in every state, detached included, each returns the stored (last-known)
value, whereas the structured GetLeaderData call fails with Detached while
the role is Disabled or Detached. -/
theorem leader_projections_never_fail (s : OTInstance) (out : LeaderData) :
    otThreadGetLeaderRouterId s = s.leaderData.mLeaderRouterId ∧
    otThreadGetLeaderWeight s = s.leaderData.mWeighting ∧
    otThreadGetPartitionId s = s.leaderData.mPartitionId ∧
    ((s.role = DeviceRole.kRoleDisabled ∨ s.role = DeviceRole.kRoleDetached) →
      (otThreadGetLeaderData s out).1 = OTError.kErrorDetached) := by
  refine ⟨rfl, rfl, rfl, ?_⟩
  intro h
  cases h with
  | inl h => simp [otThreadGetLeaderData, IsAttached, h]
  | inr h => simp [otThreadGetLeaderData, IsAttached, h]

/-- Witness for C4 at a concrete detached state. -/
theorem leader_projections_never_fail_witness :
    otThreadGetLeaderWeight (sampleInstance DeviceRole.kRoleDetached) =
      (sampleInstance DeviceRole.kRoleDetached).leaderData.mWeighting ∧
    (otThreadGetLeaderData (sampleInstance DeviceRole.kRoleDetached) ⟨0, 0, 0, 0, 0⟩).1 =
      OTError.kErrorDetached :=
  ⟨(leader_projections_never_fail (sampleInstance DeviceRole.kRoleDetached)
      ⟨0, 0, 0, 0, 0⟩).2.1,
   (leader_projections_never_fail (sampleInstance DeviceRole.kRoleDetached)
      ⟨0, 0, 0, 0, 0⟩).2.2.2 (Or.inr rfl)⟩

/-- C5: every identity setter call that returns success leaves both the
active and the pending operational dataset cleared. -/
theorem identity_setters_success_clears_datasets (s : OTInstance)
    (x p : Nat) (k : List Nat) (n : String) :
    ((otThreadSetExtendedPanId s x).1 = OTError.kErrorNone →
      (otThreadSetExtendedPanId s x).2.activeDataset = none ∧
      (otThreadSetExtendedPanId s x).2.pendingDataset = none) ∧
    ((otThreadSetNetworkKey s k).1 = OTError.kErrorNone →
      (otThreadSetNetworkKey s k).2.activeDataset = none ∧
      (otThreadSetNetworkKey s k).2.pendingDataset = none) ∧
    ((otThreadSetNetworkName s n).1 = OTError.kErrorNone →
      (otThreadSetNetworkName s n).2.activeDataset = none ∧
      (otThreadSetNetworkName s n).2.pendingDataset = none) ∧
    ((otThreadSetMeshLocalPfx s p).1 = OTError.kErrorNone →
      (otThreadSetMeshLocalPfx s p).2.activeDataset = none ∧
      (otThreadSetMeshLocalPfx s p).2.pendingDataset = none) := by
  cases hd : IsDisabled s <;>
    simp [otThreadSetExtendedPanId, otThreadSetNetworkKey, otThreadSetNetworkName,
          otThreadSetMeshLocalPfx, hd]

/-- Witness for C5: a successful SetExtendedPanId from the disabled state
clears both datasets; the hypotheses of the theorem's first implication are
discharged at that concrete state. -/
theorem identity_setters_success_clears_datasets_witness :
    (otThreadSetExtendedPanId (sampleInstance DeviceRole.kRoleDisabled) 5).1 =
      OTError.kErrorNone ∧
    (otThreadSetExtendedPanId (sampleInstance DeviceRole.kRoleDisabled) 5).2.activeDataset =
      none ∧
    (otThreadSetExtendedPanId (sampleInstance DeviceRole.kRoleDisabled) 5).2.pendingDataset =
      none :=
  ⟨by decide,
   (identity_setters_success_clears_datasets (sampleInstance DeviceRole.kRoleDisabled)
      5 0 [] sampleName).1 (by decide)⟩

/-- C6: while the role is Disabled, otThreadSetNetworkName clears both
datasets unconditionally — the MAC-layer name setter's error is returned
to the caller, yet the datasets are cleared even when that inner set
fails. -/
theorem set_network_name_clears_even_on_failure (s : OTInstance) (n : String)
    (h : s.role = DeviceRole.kRoleDisabled) :
    (otThreadSetNetworkName s n).1 = (macSetNetworkName s n).1 ∧
    (otThreadSetNetworkName s n).2.activeDataset = none ∧
    (otThreadSetNetworkName s n).2.pendingDataset = none := by
  simp [otThreadSetNetworkName, IsDisabled, h]

/-- Witness for C6: an oversized name while disabled returns InvalidArgs
and the datasets are cleared all the same. -/
theorem set_network_name_clears_even_on_failure_witness :
    (otThreadSetNetworkName (sampleInstance DeviceRole.kRoleDisabled) longName).1 =
      OTError.kErrorInvalidArgs ∧
    (otThreadSetNetworkName (sampleInstance DeviceRole.kRoleDisabled) longName).2.activeDataset =
      none := by
  have h := set_network_name_clears_even_on_failure
    (sampleInstance DeviceRole.kRoleDisabled) longName rfl
  exact ⟨by rw [h.1]; decide, h.2.1⟩

/-- C7: the administrative SetKeySequenceCounter is unconditional: in every
state (any role, any guard configuration, any time since the last
rotation) it sets the sequence to the given 32-bit value; the guard
constrains only the automatic rotation path, which is a no-op at any time
strictly before lastRotation + guard. -/
theorem key_sequence_admin_set_bypasses_guard (s : OTInstance) (v nowHours : Nat)
    (h : nowHours < s.lastKeyRotationTime + s.keySwitchGuardTime) :
    otThreadSetKeySequenceCounter s v = { s with keySequence := v % 2 ^ 32 } ∧
    keyRotationStep s nowHours = s := by
  refine ⟨rfl, ?_⟩
  have hn : ¬ (s.lastKeyRotationTime + s.keySwitchGuardTime ≤ nowHours) := by omega
  simp [keyRotationStep, hn]

/-- Witness for C7 at a concrete state inside the guard window. -/
theorem key_sequence_admin_set_bypasses_guard_witness :
    (100 : Nat) < (sampleInstance DeviceRole.kRoleRouter).lastKeyRotationTime +
      (sampleInstance DeviceRole.kRoleRouter).keySwitchGuardTime ∧
    (otThreadSetKeySequenceCounter (sampleInstance DeviceRole.kRoleRouter) 77).keySequence =
      77 % 2 ^ 32 ∧
    keyRotationStep (sampleInstance DeviceRole.kRoleRouter) 100 =
      sampleInstance DeviceRole.kRoleRouter :=
  ⟨by decide,
   by rw [(key_sequence_admin_set_bypasses_guard (sampleInstance DeviceRole.kRoleRouter)
        77 100 (by decide)).1],
   (key_sequence_admin_set_bypasses_guard (sampleInstance DeviceRole.kRoleRouter)
      77 100 (by decide)).2⟩

/-- C8: SetEnabled(true) moves Disabled to Detached and fails with
InvalidState when already started; SetEnabled(false) moves every state to
Disabled, is idempotent (a second Stop returns the same success and the
same state), and empties every neighbor-table slot. -/
theorem set_enabled_transitions (s : OTInstance) :
    (s.role = DeviceRole.kRoleDisabled →
      otThreadSetEnabled s true =
        (OTError.kErrorNone, { s with role := DeviceRole.kRoleDetached })) ∧
    (s.role ≠ DeviceRole.kRoleDisabled →
      otThreadSetEnabled s true = (OTError.kErrorInvalidState, s)) ∧
    (otThreadSetEnabled s false).1 = OTError.kErrorNone ∧
    (otThreadSetEnabled s false).2.role = DeviceRole.kRoleDisabled ∧
    otThreadSetEnabled (otThreadSetEnabled s false).2 false = otThreadSetEnabled s false ∧
    (∀ e, e ∈ (otThreadSetEnabled s false).2.neighborTable → e = none) := by
  refine ⟨?_, ?_, rfl, rfl, ?_, ?_⟩
  · intro h; simp [otThreadSetEnabled, Start, h]
  · intro h; simp [otThreadSetEnabled, Start, h]
  · simp [otThreadSetEnabled, Stop, List.map_map, Function.comp]
  · intro e he
    simp [otThreadSetEnabled, Stop] at he
    exact he.2

/-- Witness for C8: start from disabled succeeds into detached; start from
child fails in place. -/
theorem set_enabled_transitions_witness :
    otThreadSetEnabled (sampleInstance DeviceRole.kRoleDisabled) true =
      (OTError.kErrorNone,
       { sampleInstance DeviceRole.kRoleDisabled with role := DeviceRole.kRoleDetached }) ∧
    otThreadSetEnabled (sampleInstance DeviceRole.kRoleChild) true =
      (OTError.kErrorInvalidState, sampleInstance DeviceRole.kRoleChild) :=
  ⟨(set_enabled_transitions (sampleInstance DeviceRole.kRoleDisabled)).1 rfl,
   (set_enabled_transitions (sampleInstance DeviceRole.kRoleChild)).2.1 (by decide)⟩

/-- Past the end of the table, the step call signals end-of-table. -/
theorem getNext_none_of_ge :
    ∀ (table : List (Option Neighbor)) (it : Nat),
      table.length ≤ it → GetNextNeighborInfo table it = none := by
  intro table
  induction table with
  | nil => intro it _; rfl
  | cons hd rest ih =>
      intro it h
      match it with
      | 0 => simp at h
      | n + 1 =>
          have hr : rest.length ≤ n := by simp at h; omega
          simp [GetNextNeighborInfo, ih n hr]

/-- When the step call signals end-of-table, no live record remains at or
after the iterator. -/
theorem getNext_none_no_live :
    ∀ (table : List (Option Neighbor)) (it : Nat),
      GetNextNeighborInfo table it = none → (table.drop it).filterMap id = [] := by
  intro table
  induction table with
  | nil => intro it _; simp
  | cons hd rest ih =>
      intro it h
      match hd, it with
      | some x, 0 => simp [GetNextNeighborInfo] at h
      | none, 0 =>
          rw [GetNextNeighborInfo] at h
          cases hi : GetNextNeighborInfo rest 0 with
          | none => simpa using ih 0 hi
          | some p => rw [hi] at h; simp at h
      | hd, n + 1 =>
          rw [GetNextNeighborInfo] at h
          cases hi : GetNextNeighborInfo rest n with
          | none => simpa using ih n hi
          | some p => rw [hi] at h; simp at h

/-- When the step call yields a record, the iterator strictly advances and
the record is exactly the first live record at or after the old iterator:
the live records from the old iterator are that record followed by the
live records from the new iterator. -/
theorem getNext_some_spec :
    ∀ (table : List (Option Neighbor)) (it : Nat) (x : Neighbor) (it' : Nat),
      GetNextNeighborInfo table it = some (x, it') →
      it < it' ∧ (table.drop it).filterMap id = x :: (table.drop it').filterMap id := by
  intro table
  induction table with
  | nil => intro it x it' h; simp [GetNextNeighborInfo] at h
  | cons hd rest ih =>
      intro it x it' h
      match hd, it with
      | some y, 0 =>
          rw [GetNextNeighborInfo] at h
          simp at h
          obtain ⟨hx, hit⟩ := h
          subst hx
          subst hit
          simp
      | none, 0 =>
          rw [GetNextNeighborInfo] at h
          cases hi : GetNextNeighborInfo rest 0 with
          | none => rw [hi] at h; simp at h
          | some p =>
              rw [hi] at h
              obtain ⟨x0, j⟩ := p
              simp at h
              obtain ⟨hx, hit⟩ := h
              subst hx
              subst hit
              obtain ⟨h1, h2⟩ := ih 0 x0 j hi
              refine ⟨by omega, ?_⟩
              simpa using h2
      | hd, n + 1 =>
          rw [GetNextNeighborInfo] at h
          cases hi : GetNextNeighborInfo rest n with
          | none => rw [hi] at h; simp at h
          | some p =>
              rw [hi] at h
              obtain ⟨x0, j⟩ := p
              simp at h
              obtain ⟨hx, hit⟩ := h
              subst hx
              subst hit
              obtain ⟨h1, h2⟩ := ih n x0 j hi
              refine ⟨by omega, ?_⟩
              simpa using h2

/-- With enough fuel, threading the iterator from position `it` yields
exactly the live records at or after `it`, in table order. -/
theorem enumNeighbors_eq :
    ∀ (fuel : Nat) (table : List (Option Neighbor)) (it : Nat),
      table.length - it ≤ fuel →
      enumNeighbors fuel table it = (table.drop it).filterMap id := by
  intro fuel
  induction fuel with
  | zero =>
      intro table it h
      have hd : table.drop it = [] := List.drop_eq_nil_of_le (by omega)
      simp [enumNeighbors, hd]
  | succ f ih =>
      intro table it h
      rw [enumNeighbors]
      cases hg : GetNextNeighborInfo table it with
      | none => simp [getNext_none_no_live table it hg]
      | some p =>
          obtain ⟨x, it'⟩ := p
          obtain ⟨h1, h2⟩ := getNext_some_spec table it x it' hg
          rw [h2]
          exact congrArg (fun l => x :: l) (ih table it' (by omega))

/-- C9: for every table contents and fill order, repeated
GetNextNeighborInfo calls from the fresh (zero) iterator yield exactly the
live records in table order — each currently-present record once, none
twice — and the end-of-table signal is reached within table-capacity + 1
calls: any fuel at least capacity + 1 produces the same finished
enumeration. -/
theorem neighbor_enumeration_exact (table : List (Option Neighbor)) (fuel : Nat)
    (h : table.length + 1 ≤ fuel) :
    enumNeighbors fuel table 0 = table.filterMap id ∧
    enumNeighbors fuel table 0 = enumNeighbors (table.length + 1) table 0 ∧
    ((table.filterMap id).Nodup → (enumNeighbors fuel table 0).Nodup) := by
  have e1 := enumNeighbors_eq fuel table 0 (by omega)
  have e2 := enumNeighbors_eq (table.length + 1) table 0 (by omega)
  simp at e1 e2
  exact ⟨e1, e1.trans e2.symm, fun hn => e1 ▸ hn⟩

/-- Witness for C9 on a concrete three-slot table with two live records. -/
theorem neighbor_enumeration_exact_witness :
    enumNeighbors 4 [some ⟨1, 3072⟩, none, some ⟨2, 3073⟩] 0 =
      [⟨1, 3072⟩, ⟨2, 3073⟩] := by
  have h := (neighbor_enumeration_exact [some ⟨1, 3072⟩, none, some ⟨2, 3073⟩] 4
    (by decide)).1
  rw [h]
  decide

/-- C10: GetParentAverageRssi fails with the Failed error exactly when the
stored average RSSI of the parent is the invalid sentinel, succeeds with
the stored value otherwise, and in both cases leaves the instance state
unchanged: it is a pure read. -/
theorem get_parent_average_rssi_spec (s : OTInstance) :
    ((otThreadGetParentAverageRssi s).1.1 = OTError.kErrorFailed ↔
      s.parent.averageRss = OT_RADIO_RSSI_INVALID) ∧
    ((otThreadGetParentAverageRssi s).1.1 = OTError.kErrorNone ↔
      s.parent.averageRss ≠ OT_RADIO_RSSI_INVALID) ∧
    (otThreadGetParentAverageRssi s).1.2 = s.parent.averageRss ∧
    (otThreadGetParentAverageRssi s).2 = s := by
  by_cases h : s.parent.averageRss = OT_RADIO_RSSI_INVALID <;>
    simp [otThreadGetParentAverageRssi, h]

end OpenThread
